import Mathlib

/-
  Verification development for the soft-robotic flower controller (bloom.ino).
  The definitions below are a shallow embedding of the source: float values are
  modelled by an arbitrary linear ordered field with a floor (instantiated at
  the rationals for concrete evaluation and at the reals where the source feeds
  a sine-wave value), 10-bit ADC readings by naturals, and the C long/int
  arithmetic of the Arduino map helper by natural-number arithmetic, which
  agrees with C truncating division on the nonnegative values that occur.
-/

namespace Bloom

/-- Arduino map helper for the argument patterns used in bloom.ino:
map(x, inMin, inMax, outMin, outMax) = (x - inMin) * (outMax - outMin) / (inMax - inMin) + outMin
computed in C long arithmetic; every call in the source has
0 = inMin ≤ x and outMin < outMax, where C division agrees with Nat division. -/
def amap (x inMin inMax outMin outMax : ℕ) : ℕ :=
  (x - inMin) * (outMax - outMin) / (inMax - inMin) + outMin

/-- C float-to-long conversion truncates toward zero; at every call site in
bloom.ino the converted value is positive, where truncation is the floor. -/
def truncLong {α : Type} [LinearOrderedField α] [FloorRing α] (x : α) : ℕ :=
  (⌊x⌋).toNat

/-- Affine map of a normalized level to the middle-channel target pressure,
bloom.ino line 180: desiredP = (maxP - minP) * desiredP + minP, minP = 40, maxP = 110. -/
def targetPressureMiddle {α : Type} [LinearOrderedField α] (level : α) : α :=
  (110 - 40) * level + 40

/-- Affine map of a normalized level to the leaves-channel target pressure,
bloom.ino line 218: minP = minP2 = 40, maxP = maxP2 = 600. -/
def targetPressureLeaves {α : Type} [LinearOrderedField α] (level : α) : α :=
  (600 - 40) * level + 40

/-- setPressureMiddle, bloom.ino lines 172-207.  The sensor value that
analogRead(A1) returns is passed as currentP; the result is the pair
(pump analogWrite value, valve analogWrite value) emitted by the call.
The inMin and inMax parameters are unused in the source (the call to the
Arduino map on them is commented out). -/
def setPressureMiddle {α : Type} [LinearOrderedField α] [FloorRing α]
    (desiredP inMin inMax currentP : α) : ℕ × ℕ :=
  let desired := targetPressureMiddle desiredP
  let error := currentP - desired
  if error < -10 then
    (amap (truncLong (-error)) 0 110 50 255, 0)
  else if error > 10 then
    (0, amap (truncLong error) 0 110 230 255)
  else
    (0, 0)

/-- setPressureLeaves, bloom.ino lines 209-237; sensor from analogRead(A2)
is passed as currentP; result is (pump value, valve value). -/
def setPressureLeaves {α : Type} [LinearOrderedField α] [FloorRing α]
    (desiredP inMin inMax currentP : α) : ℕ × ℕ :=
  let desired := targetPressureLeaves desiredP
  let error := currentP - desired
  if error < -10 then
    (amap (truncLong (-error)) 0 600 100 255, 0)
  else if error > 10 then
    (0, amap (truncLong error) 0 600 230 255)
  else
    (0, 0)

/-- truncLong is monotone into a natural bound. -/
lemma truncLong_le {α : Type} [LinearOrderedField α] [FloorRing α] {x : α} {n : ℕ}
    (h : x ≤ (n : α)) : truncLong x ≤ n := by
  unfold truncLong
  rw [Int.toNat_le]
  calc ⌊x⌋ ≤ ⌊(n : α)⌋ := Int.floor_mono h
    _ = n := Int.floor_natCast n

/-- amap is monotone in its first argument. -/
lemma amap_mono {x y : ℕ} (inMax outMin outMax : ℕ) (h : x ≤ y) :
    amap x 0 inMax outMin outMax ≤ amap y 0 inMax outMin outMax := by
  unfold amap
  exact Nat.add_le_add_right (Nat.div_le_div_right (Nat.mul_le_mul_right _ (by omega))) _

/-- amap with zero inMin is at least outMin. -/
lemma amap_lower (x inMax outMin outMax : ℕ) : outMin ≤ amap x 0 inMax outMin outMax := by
  unfold amap
  exact Nat.le_add_left _ _

/-- Evaluation of setPressureMiddle in the pump branch. -/
lemma setPressureMiddle_below {α : Type} [LinearOrderedField α] [FloorRing α]
    (level inMin inMax p : α) (h : p - targetPressureMiddle level < -10) :
    setPressureMiddle level inMin inMax p =
      (amap (truncLong (targetPressureMiddle level - p)) 0 110 50 255, 0) := by
  simp only [setPressureMiddle]
  rw [if_pos h, neg_sub]

/-- Evaluation of setPressureMiddle in the valve branch. -/
lemma setPressureMiddle_above {α : Type} [LinearOrderedField α] [FloorRing α]
    (level inMin inMax p : α) (h : 10 < p - targetPressureMiddle level) :
    setPressureMiddle level inMin inMax p =
      (0, amap (truncLong (p - targetPressureMiddle level)) 0 110 230 255) := by
  simp only [setPressureMiddle]
  rw [if_neg (by linarith), if_pos h]

/-- Evaluation of setPressureLeaves in the pump branch. -/
lemma setPressureLeaves_below {α : Type} [LinearOrderedField α] [FloorRing α]
    (level inMin inMax p : α) (h : p - targetPressureLeaves level < -10) :
    setPressureLeaves level inMin inMax p =
      (amap (truncLong (targetPressureLeaves level - p)) 0 600 100 255, 0) := by
  simp only [setPressureLeaves]
  rw [if_pos h, neg_sub]

/-- Evaluation of setPressureLeaves in the valve branch. -/
lemma setPressureLeaves_above {α : Type} [LinearOrderedField α] [FloorRing α]
    (level inMin inMax p : α) (h : 10 < p - targetPressureLeaves level) :
    setPressureLeaves level inMin inMax p =
      (0, amap (truncLong (p - targetPressureLeaves level)) 0 600 230 255) := by
  simp only [setPressureLeaves]
  rw [if_neg (by linarith), if_pos h]

/-- Claim C1: for every target level and every sensor reading, each per-channel
regulator call commands at most one actuator nonzero: the pump command and the
valve command it emits are never both nonzero in the same call. -/
theorem regulator_mutual_exclusion (level p q : ℚ) :
    ((setPressureMiddle level 0 1 p).1 = 0 ∨ (setPressureMiddle level 0 1 p).2 = 0) ∧
    ((setPressureLeaves level 0 1 q).1 = 0 ∨ (setPressureLeaves level 0 1 q).2 = 0) := by
  constructor
  · simp only [setPressureMiddle]
    split_ifs <;> simp
  · simp only [setPressureLeaves]
    split_ifs <;> simp

/-- Claim C3: whenever the error (sensor reading minus the affine-mapped target
pressure) has absolute value at most 10, the regulator commands both the pump
and the valve to exactly 0, on both channels. -/
theorem regulator_deadband (level p q : ℚ)
    (hM : |p - targetPressureMiddle level| ≤ 10)
    (hL : |q - targetPressureLeaves level| ≤ 10) :
    setPressureMiddle level 0 1 p = (0, 0) ∧ setPressureLeaves level 0 1 q = (0, 0) := by
  rw [abs_le] at hM hL
  constructor
  · simp only [setPressureMiddle]
    rw [if_neg (by linarith [hM.1]), if_neg (by linarith [hM.2])]
  · simp only [setPressureLeaves]
    rw [if_neg (by linarith [hL.1]), if_neg (by linarith [hL.2])]

/-- Concrete instance of the deadband theorem: level 0 on both channels with a
sensor reading equal to the target pressure. -/
theorem regulator_deadband_witness :
    (|(40 : ℚ) - targetPressureMiddle 0| ≤ 10 ∧ |(40 : ℚ) - targetPressureLeaves 0| ≤ 10) ∧
    setPressureMiddle (0 : ℚ) 0 1 40 = (0, 0) ∧ setPressureLeaves (0 : ℚ) 0 1 40 = (0, 0) :=
  ⟨⟨by norm_num [targetPressureMiddle], by norm_num [targetPressureLeaves]⟩,
    regulator_deadband 0 40 40 (by norm_num [targetPressureMiddle])
      (by norm_num [targetPressureLeaves])⟩

/-- Claim C4 counterexample: at target level 0 with the middle sensor reading
1023 (the raw 10-bit maximum), the valve command computed by the source is
map(983, 0, 110, 230, 255) = 453, which is outside [0,255]; the leaves valve
command at the same inputs is 270, also outside [0,255]. -/
theorem valve_command_exceeds_255 :
    (setPressureMiddle (0 : ℚ) 0 1 1023).2 = 453 ∧
      255 < (setPressureMiddle (0 : ℚ) 0 1 1023).2 ∧
      (setPressureLeaves (0 : ℚ) 0 1 1023).2 = 270 ∧
      255 < (setPressureLeaves (0 : ℚ) 0 1 1023).2 := by
  refine ⟨?_, ?_, ?_, ?_⟩ <;>
    · norm_num [setPressureMiddle, setPressureLeaves, targetPressureMiddle,
        targetPressureLeaves, truncLong, amap]
      decide

/-- Claim C4 amended: for every targetLevel in [0,1] and every raw 10-bit
sensor reading, both pump commands lie in [0,255]; the valve commands are only
bounded by 453 (middle) and 270 (leaves), exceeding 255 when the positive error
exceeds the maxP constant used as the input range of the map call. -/
theorem regulator_command_bounds (level : ℚ) (p q : ℕ)
    (h0 : 0 ≤ level) (h1 : level ≤ 1) (hp : p ≤ 1023) (hq : q ≤ 1023) :
    (setPressureMiddle level 0 1 (p : ℚ)).1 ≤ 255 ∧
      (setPressureMiddle level 0 1 (p : ℚ)).2 ≤ 453 ∧
      (setPressureLeaves level 0 1 (q : ℚ)).1 ≤ 255 ∧
      (setPressureLeaves level 0 1 (q : ℚ)).2 ≤ 270 := by
  have hp0 : (0 : ℚ) ≤ (p : ℚ) := Nat.cast_nonneg p
  have hq0 : (0 : ℚ) ≤ (q : ℚ) := Nat.cast_nonneg q
  have hp1023 : (p : ℚ) ≤ 1023 := by exact_mod_cast hp
  have hq1023 : (q : ℚ) ≤ 1023 := by exact_mod_cast hq
  have htM : (40 : ℚ) ≤ targetPressureMiddle level ∧ targetPressureMiddle level ≤ 110 := by
    unfold targetPressureMiddle; constructor <;> nlinarith
  have htL : (40 : ℚ) ≤ targetPressureLeaves level ∧ targetPressureLeaves level ≤ 600 := by
    unfold targetPressureLeaves; constructor <;> nlinarith
  refine ⟨?_, ?_, ?_, ?_⟩
  · rcases lt_trichotomy ((p : ℚ) - targetPressureMiddle level) (-10) with h | h | h
    · rw [setPressureMiddle_below _ _ _ _ h]
      have hb : truncLong (targetPressureMiddle level - (p : ℚ)) ≤ 110 :=
        truncLong_le (by push_cast; linarith [htM.2])
      calc (amap (truncLong (targetPressureMiddle level - (p : ℚ))) 0 110 50 255, 0).1
          ≤ amap 110 0 110 50 255 := amap_mono _ _ _ hb
        _ = 255 := by decide
    · simp only [setPressureMiddle, h]; norm_num
    · rcases le_or_lt ((p : ℚ) - targetPressureMiddle level) 10 with h2 | h2
      · simp only [setPressureMiddle]
        rw [if_neg (by linarith), if_neg (by linarith)]
        norm_num
      · rw [setPressureMiddle_above _ _ _ _ h2]
        norm_num
  · rcases le_or_lt ((p : ℚ) - targetPressureMiddle level) 10 with h | h
    · rcases lt_or_le ((p : ℚ) - targetPressureMiddle level) (-10) with h2 | h2
      · rw [setPressureMiddle_below _ _ _ _ h2]
        norm_num
      · simp only [setPressureMiddle]
        rw [if_neg (not_lt.mpr h2), if_neg (not_lt.mpr h)]
        norm_num
    · rw [setPressureMiddle_above _ _ _ _ h]
      have hb : truncLong ((p : ℚ) - targetPressureMiddle level) ≤ 983 :=
        truncLong_le (by push_cast; linarith [htM.1])
      calc (0, amap (truncLong ((p : ℚ) - targetPressureMiddle level)) 0 110 230 255).2
          ≤ amap 983 0 110 230 255 := amap_mono _ _ _ hb
        _ = 453 := by decide
  · rcases lt_trichotomy ((q : ℚ) - targetPressureLeaves level) (-10) with h | h | h
    · rw [setPressureLeaves_below _ _ _ _ h]
      have hb : truncLong (targetPressureLeaves level - (q : ℚ)) ≤ 600 :=
        truncLong_le (by push_cast; linarith [htL.2])
      calc (amap (truncLong (targetPressureLeaves level - (q : ℚ))) 0 600 100 255, 0).1
          ≤ amap 600 0 600 100 255 := amap_mono _ _ _ hb
        _ = 255 := by decide
    · simp only [setPressureLeaves, h]; norm_num
    · rcases le_or_lt ((q : ℚ) - targetPressureLeaves level) 10 with h2 | h2
      · simp only [setPressureLeaves]
        rw [if_neg (by linarith), if_neg (by linarith)]
        norm_num
      · rw [setPressureLeaves_above _ _ _ _ h2]
        norm_num
  · rcases le_or_lt ((q : ℚ) - targetPressureLeaves level) 10 with h | h
    · rcases lt_or_le ((q : ℚ) - targetPressureLeaves level) (-10) with h2 | h2
      · rw [setPressureLeaves_below _ _ _ _ h2]
        norm_num
      · simp only [setPressureLeaves]
        rw [if_neg (not_lt.mpr h2), if_neg (not_lt.mpr h)]
        norm_num
    · rw [setPressureLeaves_above _ _ _ _ h]
      have hb : truncLong ((q : ℚ) - targetPressureLeaves level) ≤ 983 :=
        truncLong_le (by push_cast; linarith [htL.1])
      calc (0, amap (truncLong ((q : ℚ) - targetPressureLeaves level)) 0 600 230 255).2
          ≤ amap 983 0 600 230 255 := amap_mono _ _ _ hb
        _ = 270 := by decide

/-- Concrete instance of the amended command-bound theorem at level one half
with both sensors at the raw maximum 1023. -/
theorem regulator_command_bounds_witness :
    ((0 : ℚ) ≤ 1 / 2 ∧ (1 / 2 : ℚ) ≤ 1 ∧ (1023 : ℕ) ≤ 1023) ∧
      (setPressureMiddle (1 / 2 : ℚ) 0 1 ((1023 : ℕ) : ℚ)).1 ≤ 255 ∧
      (setPressureMiddle (1 / 2 : ℚ) 0 1 ((1023 : ℕ) : ℚ)).2 ≤ 453 ∧
      (setPressureLeaves (1 / 2 : ℚ) 0 1 ((1023 : ℕ) : ℚ)).1 ≤ 255 ∧
      (setPressureLeaves (1 / 2 : ℚ) 0 1 ((1023 : ℕ) : ℚ)).2 ≤ 270 :=
  ⟨⟨by norm_num, by norm_num, le_refl _⟩,
    regulator_command_bounds (1 / 2) 1023 1023 (by norm_num) (by norm_num)
      (le_refl _) (le_refl _)⟩

/-- Claim C10: whenever the error magnitude exceeds the deadband, exactly one
actuator receives a strictly positive command: the pump when the pressure is
below target, the valve when it is above target, on both channels. -/
theorem regulator_active_exclusive (level p q : ℚ)
    (hM : 10 < |p - targetPressureMiddle level|)
    (hL : 10 < |q - targetPressureLeaves level|) :
    ((p < targetPressureMiddle level ∧
        0 < (setPressureMiddle level 0 1 p).1 ∧ (setPressureMiddle level 0 1 p).2 = 0) ∨
      (targetPressureMiddle level < p ∧
        0 < (setPressureMiddle level 0 1 p).2 ∧ (setPressureMiddle level 0 1 p).1 = 0)) ∧
    ((q < targetPressureLeaves level ∧
        0 < (setPressureLeaves level 0 1 q).1 ∧ (setPressureLeaves level 0 1 q).2 = 0) ∨
      (targetPressureLeaves level < q ∧
        0 < (setPressureLeaves level 0 1 q).2 ∧ (setPressureLeaves level 0 1 q).1 = 0)) := by
  constructor
  · rcases lt_abs.mp hM with h | h
    · right
      rw [setPressureMiddle_above _ _ _ _ h]
      exact ⟨by linarith, lt_of_lt_of_le (by norm_num) (amap_lower _ _ _ _), rfl⟩
    · left
      have h2 : p - targetPressureMiddle level < -10 := by linarith
      rw [setPressureMiddle_below _ _ _ _ h2]
      exact ⟨by linarith, lt_of_lt_of_le (by norm_num) (amap_lower _ _ _ _), rfl⟩
  · rcases lt_abs.mp hL with h | h
    · right
      rw [setPressureLeaves_above _ _ _ _ h]
      exact ⟨by linarith, lt_of_lt_of_le (by norm_num) (amap_lower _ _ _ _), rfl⟩
    · left
      have h2 : q - targetPressureLeaves level < -10 := by linarith
      rw [setPressureLeaves_below _ _ _ _ h2]
      exact ⟨by linarith, lt_of_lt_of_le (by norm_num) (amap_lower _ _ _ _), rfl⟩

/-- Concrete instance of the active-region theorem: level 0 with both sensors
at 1023, where the valves are opened and the pumps held at zero. -/
theorem regulator_active_exclusive_witness :
    (10 < |(1023 : ℚ) - targetPressureMiddle 0| ∧
        10 < |(1023 : ℚ) - targetPressureLeaves 0|) ∧
      (((1023 : ℚ) < targetPressureMiddle 0 ∧
          0 <  (setPressureMiddle (0 : ℚ) 0 1 1023).1 ∧ (setPressureMiddle (0 : ℚ) 0 1 1023).2 = 0) ∨
        (targetPressureMiddle 0 < (1023 : ℚ) ∧
          0 < (setPressureMiddle (0 : ℚ) 0 1 1023).2 ∧ (setPressureMiddle (0 : ℚ) 0 1 1023).1 = 0)) ∧
      (((1023 : ℚ) < targetPressureLeaves 0 ∧
          0 < (setPressureLeaves (0 : ℚ) 0 1 1023).1 ∧ (setPressureLeaves (0 : ℚ) 0 1 1023).2 = 0) ∨
        (targetPressureLeaves 0 < (1023 : ℚ) ∧
          0 < (setPressureLeaves (0 : ℚ) 0 1 1023).2 ∧ (setPressureLeaves (0 : ℚ) 0 1 1023).1 = 0)) :=
  ⟨⟨by norm_num [targetPressureMiddle], by norm_num [targetPressureLeaves]⟩,
    regulator_active_exclusive 0 1023 1023 (by norm_num [targetPressureMiddle])
      (by norm_num [targetPressureLeaves])⟩

/-- frand, bloom.ino line 91: a + (b - a) * (random(0, 10000) / 10000.0);
the draw random(0, 10000), which Arduino returns in [0, 9999], is modelled
by the parameter u. -/
def frand (a b : ℚ) (u : ℕ) : ℚ :=
  a + (b - a) * ((u : ℚ) / 10000)

/-- Per-mode dwell ranges in seconds, bloom.ino lines 66-72, indexed by
NEUTRAL = 0, CALM = 1, CURIOUS = 2, ANGRY = 3, SAD = 4. -/
def DWELL : Fin 5 → ℚ × ℚ :=
  ![(5, 7), (7, 15), (5, 10), (10, 13), (5, 12)]

/-- sampleDwellMillis, bloom.ino lines 93-96: secs = frand(lo, hi) / SPEED_FACTOR,
returned as (unsigned long)(secs * 1000.0f); the global SPEED_FACTOR is passed
as sf and the C cast truncates the positive product toward zero, its floor. -/
def sampleDwellMillis (sf : ℚ) (s : Fin 5) (u : ℕ) : ℕ :=
  truncLong (frand (DWELL s).1 (DWELL s).2 u / sf * 1000)

/-- Transition matrix P, bloom.ino lines 52-59, via exact decimal values. -/
def P : Fin 5 → Fin 5 → ℚ :=
  ![![1/10, 35/100, 25/100, 15/100, 15/100],
    ![25/100, 1/10, 3/10, 2/10, 15/100],
    ![1/10, 25/100, 1/10, 25/100, 3/10],
    ![25/100, 2/10, 1/10, 1/10, 35/100],
    ![3/10, 3/10, 1/10, 2/10, 1/10]]

/-- Row s of P, in the order the loop of sampleNextState visits it. -/
def Prow (s : Fin 5) : List ℚ :=
  [P s 0, P s 1, P s 2, P s 3, P s 4]

/-- The loop of sampleNextState, bloom.ino lines 99-107: acc accumulates the
row, n is the loop counter, the list holds the row entries still to visit, and
an exhausted list yields the fallback value 4, the last mode of the row. -/
def sampleNextStateGo (r : ℚ) : ℚ → ℕ → List ℚ → ℕ
  | _, _, [] => 4
  | acc, n, x :: rest =>
      if r ≤ acc + x then n else sampleNextStateGo r (acc + x) (n + 1) rest

/-- sampleNextState, bloom.ino lines 99-107, on the actual matrix row. -/
def sampleNextState (s : Fin 5) (r : ℚ) : ℕ :=
  sampleNextStateGo r 0 0 (Prow s)

/-- Cumulative sum of the first n entries of a row. -/
def cumsum (l : List ℚ) (n : ℕ) : ℚ :=
  (l.take n).sum

lemma cumsum_cons (x : ℚ) (rest : List ℚ) (m : ℕ) :
    cumsum (x :: rest) (m + 1) = x + cumsum rest m := by
  simp [cumsum]

/-- Loop invariant for the roulette-wheel walk: starting at counter n with the
accumulated prefix in acc, the walk either falls through to 4 with every
remaining cumulative sum strictly below r, or stops at the first remaining
index whose cumulative sum reaches r. -/
lemma sampleNextStateGo_spec (r : ℚ) :
    ∀ (l : List ℚ) (acc : ℚ) (n : ℕ),
      (sampleNextStateGo r acc n l = 4 ∧ ∀ i, i < l.length → acc + cumsum l (i + 1) < r) ∨
      (∃ j, j < l.length ∧ sampleNextStateGo r acc n l = n + j ∧
        r ≤ acc + cumsum l (j + 1) ∧ ∀ i, i < j → acc + cumsum l (i + 1) < r) := by
  intro l
  induction l with
  | nil =>
      intro acc n
      left
      exact ⟨rfl, by simp⟩
  | cons x rest ih =>
      intro acc n
      by_cases h : r ≤ acc + x
      · right
        refine ⟨0, by simp, ?_, ?_, ?_⟩
        · simp [sampleNextStateGo, h]
        · simpa [cumsum_cons, cumsum] using h
        · intro i hi
          omega
      · have hlt : acc + x < r := not_le.mp h
        have hgo : sampleNextStateGo r acc n (x :: rest) =
            sampleNextStateGo r (acc + x) (n + 1) rest := by
          simp [sampleNextStateGo, h]
        rcases ih (acc + x) (n + 1) with ⟨heq, hall⟩ | ⟨j, hj, heq, hle, hfirst⟩
        · left
          refine ⟨hgo.trans heq, ?_⟩
          intro i hi
          match i with
          | 0 => simpa [cumsum_cons, cumsum] using hlt
          | i + 1 =>
              rw [cumsum_cons, ← add_assoc]
              exact hall i (by simpa using hi)
        · right
          refine ⟨j + 1, by simpa using Nat.succ_lt_succ hj, ?_, ?_, ?_⟩
          · rw [hgo, heq]; omega
          · rw [cumsum_cons, ← add_assoc]; exact hle
          · intro i hi
            match i with
            | 0 => simpa [cumsum_cons, cumsum] using hlt
            | i + 1 =>
                rw [cumsum_cons, ← add_assoc]
                exact hfirst i (by omega)

/-- Claim C5: for any five-entry row (including rows summing to less than one)
and any draw r in [0,1), the roulette walk terminates with one of the five
valid mode indices; every index it skipped has cumulative sum strictly below r,
the index returned is the first whose cumulative sum reaches r unless the
fallback 4 (the last mode of the row) was taken, and sampleNextState runs this
walk on the transition-matrix row of the current mode. -/
theorem roulette_first_crossing (l : List ℚ) (r : ℚ)
    (hlen : l.length = 5) (h0 : 0 ≤ r) (h1 : r < 1) :
    sampleNextStateGo r 0 0 l < 5 ∧
      (∀ m, m < sampleNextStateGo r 0 0 l → cumsum l (m + 1) < r) ∧
      (r ≤ cumsum l (sampleNextStateGo r 0 0 l + 1) ∨ sampleNextStateGo r 0 0 l = 4) ∧
      (∀ s : Fin 5, sampleNextState s r = sampleNextStateGo r 0 0 (Prow s)) := by
  rcases sampleNextStateGo_spec r l 0 0 with ⟨heq, hall⟩ | ⟨j, hj, heq, hle, hfirst⟩
  · rw [heq]
    refine ⟨by norm_num, ?_, Or.inr rfl, fun s => rfl⟩
    intro m hm
    have := hall m (by omega)
    linarith [this]
  · rw [heq, zero_add] at *
    refine ⟨by omega, ?_, Or.inl (by linarith [hle]), fun s => rfl⟩
    intro m hm
    have := hfirst m hm
    linarith [this]

/-- Concrete instance of the roulette theorem on the NEUTRAL row with draw
one half. -/
theorem roulette_first_crossing_witness :
    ((Prow 0).length = 5 ∧ (0 : ℚ) ≤ 1 / 2 ∧ (1 / 2 : ℚ) < 1) ∧
      (sampleNextStateGo (1 / 2) 0 0 (Prow 0) < 5 ∧
        (∀ m, m < sampleNextStateGo (1 / 2 : ℚ) 0 0 (Prow 0) →
          cumsum (Prow 0) (m + 1) < 1 / 2) ∧
        ((1 / 2 : ℚ) ≤ cumsum (Prow 0) (sampleNextStateGo (1 / 2 : ℚ) 0 0 (Prow 0) + 1) ∨
          sampleNextStateGo (1 / 2 : ℚ) 0 0 (Prow 0) = 4) ∧
        (∀ s : Fin 5, sampleNextState s (1 / 2 : ℚ) =
          sampleNextStateGo (1 / 2 : ℚ) 0 0 (Prow s))) :=
  ⟨⟨rfl, by norm_num, by norm_num⟩,
    roulette_first_crossing (Prow 0) (1 / 2) rfl (by norm_num) (by norm_num)⟩

lemma frand_bounds {a b : ℚ} (hab : a ≤ b) {u : ℕ} (hu : u < 10000) :
    a ≤ frand a b u ∧ frand a b u ≤ b := by
  unfold frand
  constructor
  · have h1 : 0 ≤ (b - a) * ((u : ℚ) / 10000) :=
      mul_nonneg (by linarith) (by positivity)
    linarith
  · have hu1 : ((u : ℚ) / 10000) ≤ 1 := by
      rw [div_le_one (by norm_num)]
      exact_mod_cast le_of_lt hu
    have h2 : (b - a) * ((u : ℚ) / 10000) ≤ (b - a) * 1 :=
      mul_le_mul_of_nonneg_left hu1 (by linarith)
    linarith

lemma dwell_range_valid (s : Fin 5) :
    0 < (DWELL s).1 ∧ (DWELL s).1 ≤ (DWELL s).2 := by
  fin_cases s <;> simp [DWELL] <;> norm_num

/-- General truncation bounds for the sampled dwell in milliseconds. -/
lemma sampleDwellMillis_bounds (s : Fin 5) (sf : ℚ) (u : ℕ)
    (hsf : 0 < sf) (hu : u < 10000) :
    1000 * (DWELL s).1 / sf - 1 < (sampleDwellMillis sf s u : ℚ) ∧
      (sampleDwellMillis sf s u : ℚ) ≤ 1000 * (DWELL s).2 / sf := by
  obtain ⟨hlo, hab⟩ := dwell_range_valid s
  obtain ⟨hfa, hfb⟩ := frand_bounds hab hu
  set x : ℚ := frand (DWELL s).1 (DWELL s).2 u / sf * 1000 with hx
  have hxlo : 1000 * (DWELL s).1 / sf ≤ x := by
    rw [hx, div_mul_eq_mul_div]
    exact (div_le_div_iff_of_pos_right hsf).mpr (by linarith)
  have hxhi : x ≤ 1000 * (DWELL s).2 / sf := by
    rw [hx, div_mul_eq_mul_div]
    exact (div_le_div_iff_of_pos_right hsf).mpr (by linarith)
  have hxpos : 0 ≤ x := le_trans (by positivity) hxlo
  have hfl0 : 0 ≤ ⌊x⌋ := Int.floor_nonneg.mpr hxpos
  have hcast : ((sampleDwellMillis sf s u : ℕ) : ℚ) = ((⌊x⌋ : ℤ) : ℚ) := by
    simp only [sampleDwellMillis, truncLong, ← hx]
    exact_mod_cast congrArg (fun z : ℤ => (z : ℚ)) (Int.toNat_of_nonneg hfl0)
  constructor
  · have h1 : x - 1 < ((⌊x⌋ : ℤ) : ℚ) := Int.sub_one_lt_floor x
    rw [hcast]
    linarith
  · have h2 : ((⌊x⌋ : ℤ) : ℚ) ≤ x := Int.floor_le x
    rw [hcast]
    linarith

/-- Claim C6 counterexample: in mode NEUTRAL (dwell range [5,7] seconds) with
speedFactor 3 and the random draw 0, the sampled dwell is 1666 milliseconds,
which in seconds is strictly below lo / speedFactor = 5/3: the millisecond
truncation undershoots the claimed lower bound. -/
theorem dwell_truncation_undershoot :
    sampleDwellMillis 3 0 0 = 1666 ∧
      ((sampleDwellMillis 3 0 0 : ℚ) / 1000 < (DWELL 0).1 / 3) := by
  have h : sampleDwellMillis 3 0 0 = 1666 := by
    have hd : DWELL 0 = (5, 7) := rfl
    simp only [sampleDwellMillis, hd, truncLong, frand]
    norm_num
    decide
  refine ⟨h, ?_⟩
  rw [h]
  have hd : DWELL 0 = (5, 7) := rfl
  rw [hd]
  norm_num

/-- Claim C6 amended: the sampled dwell, truncated to whole milliseconds, lies
within (lo/speedFactor - 0.001, hi/speedFactor] seconds for every mode and
every positive speedFactor - the lower bound can be undershot by less than one
millisecond - and for mode ANGRY (dwell range [10,13] seconds) with
speedFactor 2 the dwell lies in [5, 6.5] seconds exactly. -/
theorem dwell_bounds (s : Fin 5) (sf : ℚ) (u : ℕ) (hsf : 0 < sf) (hu : u < 10000) :
    1000 * (DWELL s).1 / sf - 1 < (sampleDwellMillis sf s u : ℚ) ∧
      (sampleDwellMillis sf s u : ℚ) ≤ 1000 * (DWELL s).2 / sf ∧
      5000 ≤ sampleDwellMillis 2 3 u ∧ sampleDwellMillis 2 3 u ≤ 6500 := by
  obtain ⟨h1, h2⟩ := sampleDwellMillis_bounds s sf u hsf hu
  obtain ⟨h3, h4⟩ := sampleDwellMillis_bounds 3 2 u (by norm_num) hu
  have hd : DWELL 3 = (10, 13) := rfl
  rw [hd] at h3 h4
  norm_num at h3 h4
  refine ⟨h1, h2, ?_, ?_⟩
  · exact_mod_cast h3
  · exact_mod_cast h4

/-- Concrete instance of the amended dwell-bound theorem in mode ANGRY with
speedFactor 2 and random draw 0. -/
theorem dwell_bounds_witness :
    ((0 : ℚ) < 2 ∧ (0 : ℕ) < 10000) ∧
      (1000 * (DWELL 3).1 / 2 - 1 < (sampleDwellMillis 2 3 0 : ℚ) ∧
        (sampleDwellMillis 2 3 0 : ℚ) ≤ 1000 * (DWELL 3).2 / 2 ∧
        5000 ≤ sampleDwellMillis 2 3 0 ∧ sampleDwellMillis 2 3 0 ≤ 6500) :=
  ⟨⟨by norm_num, by norm_num⟩, dwell_bounds 3 2 0 (by norm_num) (by norm_num)⟩

/-- Effective period of triWave: bloom.ino line 241 clamps a period below 10
to 10 before the phase computation. -/
def triWavePeriod (period : ℕ) : ℕ :=
  if period < 10 then 10 else period

/-- Effective period of sineWave: bloom.ino line 249 clamps below 10 to 10. -/
def sineWavePeriod (period : ℕ) : ℕ :=
  if period < 10 then 10 else period

/-- Effective period of squareWave: bloom.ino line 256 clamps below 10 to 10. -/
def squareWavePeriod (period : ℕ) : ℕ :=
  if period < 10 then 10 else period

/-- Effective period of heartPulse: bloom.ino lines 261-266 apply no clamp,
so the modulo and the division use the raw period argument. -/
def heartPulsePeriod (period : ℕ) : ℕ :=
  period

/-- triWave, bloom.ino lines 240-246. -/
def triWave (t period : ℕ) (minL maxL : ℚ) : ℚ :=
  let p := triWavePeriod period
  let phase : ℚ := ((t % p : ℕ) : ℚ) / (p : ℚ)
  let y := if phase < 1 / 2 then phase * 2 else 2 - phase * 2
  minL + (maxL - minL) * y

/-- sineWave, bloom.ino lines 248-253; the source multiplies the phase by
2 * 3.14159, written here as the exact rational 314159/100000. -/
noncomputable def sineWave (t period : ℕ) (minL maxL : ℚ) : ℝ :=
  let p := sineWavePeriod period
  let phase : ℝ := ((t % p : ℕ) : ℝ) / (p : ℝ)
  let y : ℝ := 1 / 2 + 1 / 2 * Real.sin (2 * (314159 / 100000) * phase)
  (minL : ℝ) + ((maxL : ℝ) - (minL : ℝ)) * y

/-- squareWave, bloom.ino lines 255-259. -/
def squareWave (t period : ℕ) (duty : ℚ) : ℚ :=
  let p := squareWavePeriod period
  let phase : ℚ := ((t % p : ℕ) : ℚ) / (p : ℚ)
  if phase < duty then 1 else 0

/-- heartPulse, bloom.ino lines 261-266: |sin(2 * 3.14159 * phase)| raised to
the power 3.5, with no period clamp. -/
noncomputable def heartPulse (t period : ℕ) : ℝ :=
  let p := heartPulsePeriod period
  let phase : ℝ := ((t % p : ℕ) : ℝ) / (p : ℝ)
  |Real.sin (2 * (314159 / 100000) * phase)| ^ ((35 : ℝ) / 10)

/-- Claim C7 counterexample: with the raw period argument 5 (below the clamp
threshold), shifting t by one full period changes the output of triWave, so
periodicity in the period argument fails for periods below 10. -/
theorem triWave_raw_period_not_periodic :
    triWave (0 + 1 * 5) 5 0 1 ≠ triWave 0 5 0 1 := by
  norm_num [triWave, triWavePeriod]

/-- Claim C7 amended: for every period of at least 10 (where the clamp is the
identity), every time t, every shift count k and all shape parameters with
lo ≤ hi, each of the four waveforms satisfies output(t + k * period) =
output(t), triWave and sineWave stay within [lo, hi], and squareWave and
heartPulse stay within [0, 1]; for periods below 10 the periodicity only holds
with respect to the clamped period (10), not the raw argument. -/
theorem waveform_periodicity_and_range (t k period : ℕ) (minL maxL duty : ℚ)
    (hper : 10 ≤ period) (hm : minL ≤ maxL) :
    (triWave (t + k * period) period minL maxL = triWave t period minL maxL ∧
      sineWave (t + k * period) period minL maxL = sineWave t period minL maxL ∧
      squareWave (t + k * period) period duty = squareWave t period duty ∧
      heartPulse (t + k * period) period = heartPulse t period) ∧
    (minL ≤ triWave t period minL maxL ∧ triWave t period minL maxL ≤ maxL) ∧
    ((minL : ℝ) ≤ sineWave t period minL maxL ∧ sineWave t period minL maxL ≤ (maxL : ℝ)) ∧
    (0 ≤ squareWave t period duty ∧ squareWave t period duty ≤ 1) ∧
    (0 ≤ heartPulse t period ∧ heartPulse t period ≤ 1) := by
  have hpos : 0 < period := by omega
  have hcl : ∀ f : ℕ → ℕ, f = triWavePeriod ∨ f = sineWavePeriod ∨ f = squareWavePeriod →
      f period = period := by
    rintro f (rfl | rfl | rfl) <;>
      simp [triWavePeriod, sineWavePeriod, squareWavePeriod, Nat.not_lt.mpr hper]
  have hctr : triWavePeriod period = period := hcl _ (Or.inl rfl)
  have hcsi : sineWavePeriod period = period := hcl _ (Or.inr (Or.inl rfl))
  have hcsq : squareWavePeriod period = period := hcl _ (Or.inr (Or.inr rfl))
  have hmod : (t + k * period) % period = t % period := Nat.add_mul_mod_self_right t k period
  have hphq : 0 ≤ ((t % period : ℕ) : ℚ) / (period : ℚ) ∧
      ((t % period : ℕ) : ℚ) / (period : ℚ) < 1 := by
    constructor
    · positivity
    · rw [div_lt_one (by exact_mod_cast hpos)]
      exact_mod_cast Nat.mod_lt t hpos
  refine ⟨⟨?_, ?_, ?_, ?_⟩, ?_, ?_, ?_, ?_⟩
  · simp only [triWave, hctr, hmod]
  · simp only [sineWave, hcsi, hmod]
  · simp only [squareWave, hcsq, hmod]
  · simp only [heartPulse, heartPulsePeriod, hmod]
  · simp only [triWave, hctr]
    constructor
    · split_ifs with h
      · nlinarith [hphq.1, hphq.2]
      · push_neg at h
        nlinarith [hphq.1, hphq.2]
    · split_ifs with h
      · nlinarith [hphq.1, hphq.2]
      · push_neg at h
        nlinarith [hphq.1, hphq.2]
  · simp only [sineWave, hcsi]
    have hs1 : -1 ≤ Real.sin (2 * (314159 / 100000) *
        (((t % period : ℕ) : ℝ) / (period : ℝ))) := Real.neg_one_le_sin _
    have hs2 : Real.sin (2 * (314159 / 100000) *
        (((t % period : ℕ) : ℝ) / (period : ℝ))) ≤ 1 := Real.sin_le_one _
    have hmr : (minL : ℝ) ≤ (maxL : ℝ) := by exact_mod_cast hm
    constructor <;> nlinarith
  · simp only [squareWave, hcsq]
    split_ifs <;> norm_num
  · simp only [heartPulse, heartPulsePeriod]
    constructor
    · exact Real.rpow_nonneg (abs_nonneg _) _
    · exact Real.rpow_le_one (abs_nonneg _)
        (abs_le.mpr ⟨Real.neg_one_le_sin _, Real.sin_le_one _⟩) (by norm_num)

/-- Concrete instance of the amended waveform theorem: period 10, range [0,1],
duty one half, shifting t = 0 by one period leaves triWave unchanged. -/
theorem waveform_periodicity_and_range_witness :
    ((10 : ℕ) ≤ 10 ∧ (0 : ℚ) ≤ 1) ∧
      triWave (0 + 1 * 10) 10 0 1 = triWave 0 10 0 1 :=
  ⟨⟨le_refl 10, by norm_num⟩,
    (waveform_periodicity_and_range 0 1 10 0 1 (1 / 2) (le_refl 10) (by norm_num)).1.1⟩

/-- Claim C8 counterexample: heartPulse applies no clamp to its period, so at
the period argument 0 its effective period is 0 (its phase computation divides
by zero), while the other three waveforms clamp 0 up to 10. -/
theorem heartPulse_period_not_clamped :
    heartPulsePeriod 0 = 0 ∧ triWavePeriod 0 = 10 ∧ sineWavePeriod 0 = 10 ∧
      squareWavePeriod 0 = 10 :=
  ⟨rfl, rfl, rfl, rfl⟩

/-- Claim C8 amended: triWave, sineWave and squareWave clamp their period
argument to a minimum of 10 before computing the phase, so their modulo and
division are well-defined for every period input including 0; heartPulse
performs no clamp and uses the raw period, degenerate at period 0. -/
theorem waveform_period_clamps (period : ℕ) :
    10 ≤ triWavePeriod period ∧ 10 ≤ sineWavePeriod period ∧
      10 ≤ squareWavePeriod period ∧ heartPulsePeriod period = period := by
  unfold triWavePeriod sineWavePeriod squareWavePeriod heartPulsePeriod
  refine ⟨?_, ?_, ?_, rfl⟩ <;> split_ifs <;> omega

/-- Orchestration outputs of runCurious: the two channel target levels handed
to the pressure regulators, the LED brightness, the sequence of per-pixel
setPixelColor writes (index, r, g, b), and the updated ledChaseIndex. -/
structure CuriousOut where
  midLevel : ℚ
  leafLevel : ℚ
  brightness : ℕ
  pixels : List (ℕ × ℕ × ℕ × ℕ)
  chase : ℕ

/-- runCurious, bloom.ino lines 289-311; c is the persistent global
ledChaseIndex read and advanced by the call, NUM_LEDS = 16, and the uint8_t
casts of the attenuated colors truncate the nonnegative floats toward zero. -/
def runCurious (sf : ℚ) (now c : ℕ) : CuriousOut :=
  let pulsePeriod := truncLong ((1200 : ℚ) / sf)
  let leavesPulse := triWave now pulsePeriod (15 / 100) (85 / 100)
  { midLevel := 1 / 2
    leafLevel := leavesPulse
    brightness := 60
    pixels := (List.range 16).map (fun i =>
      let idx := (i + c / 2) % 16
      let atten : ℚ := if idx = i then 1 else 1 / 4
      (idx, truncLong (220 * atten), truncLong (180 * atten), truncLong (40 * atten)))
    chase := (c + 1) % 64 }

/-- Orchestration outputs of runAngry, as for CuriousOut. -/
structure AngryOut where
  midLevel : ℚ
  leafLevel : ℚ
  brightness : ℕ
  pixels : List (ℕ × ℕ × ℕ × ℕ)
  chase : ℕ

/-- runAngry, bloom.ino lines 313-333; c is the persistent ledChaseIndex
(uint16_t, hence the wrap at 65536 on increment), advanced only on ticks where
now is a multiple of 60. -/
noncomputable def runAngry (sf : ℚ) (now c : ℕ) : AngryOut :=
  let burstPeriod := truncLong ((900 : ℚ) / sf)
  let baseL := squareWave now burstPeriod (45 / 100)
  let leavesL := 1 / 2 + baseL * (8 / 10 - 1 / 2)
  let hb := heartPulse now (truncLong ((500 : ℚ) / sf))
  { midLevel := baseL
    leafLevel := leavesL
    brightness := truncLong ((80 : ℝ) + hb * 120)
    pixels := (List.range 16).map (fun i =>
      let onv : ℕ := if i = c % 16 then 40 else 0
      (i, 255, 60 + onv, 0))
    chase := if now % 60 = 0 then (c + 1) % 65536 else c }

/-- The pixel pattern of runCurious does not depend on the speed factor, and
it differs between stored chase values 0 and 2 at the same clock reading. -/
lemma runCurious_pixels_differ (sf : ℚ) :
    (runCurious sf 0 0).pixels ≠ (runCurious sf 0 2).pixels := by
  have h0 : (runCurious sf 0 0).pixels = (runCurious 1 0 0).pixels := rfl
  have h2 : (runCurious sf 0 2).pixels = (runCurious 1 0 2).pixels := rfl
  rw [h0, h2]
  decide

/-- Claim C9 counterexample: a runCurious call at clock reading 0 changes the
persistent ledChaseIndex, and after two further calls at the same clock
reading the per-pixel visual output differs from the first call, so the
visual signal is not a pure function of (mode, clock). -/
theorem curious_visual_stateful :
    (runCurious 1 0 0).chase ≠ 0 ∧
      (runCurious 1 0 ((runCurious 1 0 ((runCurious 1 0 0).chase)).chase)).pixels ≠
        (runCurious 1 0 0).pixels := by
  constructor
  · decide
  · have h : ((runCurious 1 0 ((runCurious 1 0 0).chase)).chase) = 2 := rfl
    rw [h]
    exact (runCurious_pixels_differ 1).symm

/-- Claim C9 amended: the two channel target levels computed by runCurious and
runAngry are pure functions of the clock reading and fixed configuration
(identical across calls with any stored ledChaseIndex), but the visual signal
reads the persistent ledChaseIndex, which runCurious advances on every call
and runAngry advances whenever now is a multiple of 60, and there are chase
values under which the pixel output at the same clock reading differs. -/
theorem orchestrator_levels_pure (sf : ℚ) (now c c2 : ℕ) :
    ((runCurious sf now c).midLevel = (runCurious sf now c2).midLevel ∧
      (runCurious sf now c).leafLevel = (runCurious sf now c2).leafLevel) ∧
    ((runAngry sf now c).midLevel = (runAngry sf now c2).midLevel ∧
      (runAngry sf now c).leafLevel = (runAngry sf now c2).leafLevel) ∧
    ((runCurious sf now c).chase = (c + 1) % 64 ∧
      (runAngry sf now c).chase = if now % 60 = 0 then (c + 1) % 65536 else c) ∧
    (∃ n d1 d2, (runCurious sf n d1).pixels ≠ (runCurious sf n d2).pixels) :=
  ⟨⟨rfl, rfl⟩, ⟨rfl, rfl⟩, ⟨rfl, rfl⟩, 0, 0, 2, runCurious_pixels_differ sf⟩

/-- The mutable engine state of the sketch: the current mode, the dwell
deadline stateEndMs, the LED chase counter and the middle-channel pressure
memory (bloom.ino lines 74-88). -/
structure Engine where
  current : Fin 5
  stateEndMs : ℕ
  ledChaseIndex : ℕ
  prevDesiredPMiddle : ℚ

/-- Outputs of runNeutral: the two regulator command pairs and the uniform
LED fill (r, g, b, brightness). -/
structure NeutralOut where
  midCmd : ℕ × ℕ
  leafCmd : ℕ × ℕ
  ledFill : ℕ × ℕ × ℕ × ℕ

/-- runNeutral, bloom.ino lines 269-275: a sine target on the middle channel,
level 0 on the leaves channel, and a uniform grey LED fill; a1 and a2 are the
sensor readings consumed by the two regulator calls. -/
noncomputable def runNeutral (sf : ℚ) (now a1 a2 : ℕ) : NeutralOut :=
  let period := truncLong ((8000 : ℚ) / sf)
  let baseL : ℝ := sineWave now period (1 / 10) (85 / 100)
  { midCmd := setPressureMiddle baseL 0 1 (a1 : ℝ)
    leafCmd := setPressureLeaves (0 : ℝ) 0 1 (a2 : ℝ)
    ledFill := (100, 100, 100, 100) }

/-- The active body of loop(), bloom.ino lines 420-445: it reads the clock
once into now, calls runNeutral(now) unconditionally — the runBehavior,
sampleNextState and enterState block is commented out — and delays 10 ms.
The engine state is unchanged except for the prevDesiredPMiddle memory that
the setPressureMiddle call inside runNeutral overwrites with the sensor
reading (bloom.ino line 206). -/
noncomputable def loopTick (sf : ℚ) (st : Engine) (now a1 a2 : ℕ) : Engine × NeutralOut :=
  ({ st with prevDesiredPMiddle := (a1 : ℚ) }, runNeutral sf now a1 a2)

/-- Claim C2: the loop body reads the clock once, but it neither dispatches on
the current mode nor performs the check-and-advance step: the current mode and
the mode deadline are unchanged on every tick (even when now has reached
stateEndMs), and the behavior outputs are independent of the stored engine
state, because the only behavior invoked is runNeutral. -/
theorem loop_skips_state_machine (sf : ℚ) (st st2 : Engine) (now a1 a2 : ℕ) :
    (loopTick sf st now a1 a2).1.current = st.current ∧
      (loopTick sf st now a1 a2).1.stateEndMs = st.stateEndMs ∧
      (loopTick sf st now a1 a2).2 = (loopTick sf st2 now a1 a2).2 :=
  ⟨rfl, rfl, rfl⟩

end Bloom
